import Mathlib

/-!
Verification of the progress reconciliation core of `abs-cli`
(`src/abs_cli/commands/progress.py`), shallowly embedded in Lean 4.

The embedding covers:
* the reconciliation loop of `progress_sync` (lines 313-351),
* the per-library pagination loop of `_build_asin_index` (lines 227-253),
* the external source readers `_read_libation_finished` (lines 162-174)
  and `_read_audible_export_finished` (lines 177-202).

HTTP transport is modelled by a status function `server : String → Nat`;
`raise_for_status` aborts on any status `≥ 400` (httpx semantics).
-/

namespace AbsCli

/-- Dataclass `FinishedBook` (progress.py lines 21-27): an externally
reported finished book. `asin` is the catalog identifier. -/
structure FinishedBook where
  asin : String
  title : String
  source : String
deriving DecidableEq, Repr

/-- One value of the ASIN index built by `_build_asin_index`
(progress.py lines 244-248): `{"item_id", "title", "is_finished"}`. -/
structure AbsItem where
  item_id : String
  title : String
  is_finished : Bool
deriving DecidableEq, Repr

/-- The four reconciliation outcomes of one record, as described by the
branch structure of the loop in `progress_sync` (lines 317-348). -/
inductive MatchOutcome where
  | NoMatch
  | AlreadyFinished
  | Synced
  | WouldSync
deriving DecidableEq, Repr

/-- A PATCH call to `/me/progress/{item_id}` with body
`{"isFinished": true, "progress": 1}` (progress.py lines 334-337). -/
structure WriteCall where
  item_id : String
  isFinished : Bool
  progress : Nat
deriving DecidableEq, Repr

/-- The observable result of one reconciliation run: the three tallies
`synced`/`skipped`/`not_found` (progress.py lines 313-315), the write
calls actually sent in order, the per-record outcomes in input order, and
`aborted = some status` when a write's `raise_for_status` raised. -/
structure SyncRun where
  synced : Nat
  skipped : Nat
  not_found : Nat
  writes : List WriteCall
  outcomes : List MatchOutcome
  aborted : Option Nat
deriving DecidableEq, Repr

/-- The reconciliation loop of `progress_sync` (progress.py lines
317-348), record by record.  `asin_index.lookup book.asin` embeds
`asin_index.get(book.asin)`; a missing match tallies `not_found`; a
finished match tallies `skipped`; otherwise under `apply` a PATCH write
is issued and `raise_for_status` aborts the whole run on status `≥ 400`
(httpx raises for 4xx/5xx); in all surviving branches `synced += 1`
(line 348 runs after both the apply and the dry-run branch). -/
def syncBooks (server : String → Nat) (asin_index : List (String × AbsItem))
    (apply : Bool) : List FinishedBook → SyncRun
  | [] => ⟨0, 0, 0, [], [], none⟩
  | book :: rest =>
    match asin_index.lookup book.asin with
    | none =>
      let r := syncBooks server asin_index apply rest
      { r with not_found := r.not_found + 1, outcomes := .NoMatch :: r.outcomes }
    | some item =>
      if item.is_finished then
        let r := syncBooks server asin_index apply rest
        { r with skipped := r.skipped + 1, outcomes := .AlreadyFinished :: r.outcomes }
      else if apply then
        let w : WriteCall := ⟨item.item_id, true, 1⟩
        let status := server item.item_id
        if 400 ≤ status then
          ⟨0, 0, 0, [w], [], some status⟩
        else
          let r := syncBooks server asin_index apply rest
          { r with synced := r.synced + 1, writes := w :: r.writes,
                   outcomes := .Synced :: r.outcomes }
      else
        let r := syncBooks server asin_index apply rest
        { r with synced := r.synced + 1, outcomes := .WouldSync :: r.outcomes }

/-- The outcome a single record classifies to, read off the branch
structure of the loop (progress.py lines 317-348). -/
def classify (asin_index : List (String × AbsItem)) (apply : Bool)
    (book : FinishedBook) : MatchOutcome :=
  match asin_index.lookup book.asin with
  | none => .NoMatch
  | some item =>
    if item.is_finished then .AlreadyFinished
    else if apply then .Synced else .WouldSync

/-- The record matches an index item that is not yet finished
(the only case in which a write can be issued). -/
def matchedUnfinished (asin_index : List (String × AbsItem))
    (book : FinishedBook) : Bool :=
  match asin_index.lookup book.asin with
  | some item => !item.is_finished
  | none => false

/-- The record matches an index item that is already finished. -/
def matchedFinished (asin_index : List (String × AbsItem))
    (book : FinishedBook) : Bool :=
  match asin_index.lookup book.asin with
  | some item => item.is_finished
  | none => false

/-- The record has no match in the index. -/
def noMatch (asin_index : List (String × AbsItem))
    (book : FinishedBook) : Bool :=
  (asin_index.lookup book.asin).isNone

/-- The write the loop would issue for one record, if any
(progress.py lines 333-337). -/
def syncWrite (asin_index : List (String × AbsItem))
    (book : FinishedBook) : Option WriteCall :=
  match asin_index.lookup book.asin with
  | some item =>
    if item.is_finished then none else some ⟨item.item_id, true, 1⟩
  | none => none

/-- All writes a completed run issues, in input order. -/
def syncWrites (asin_index : List (String × AbsItem)) (apply : Bool)
    (books : List FinishedBook) : List WriteCall :=
  if apply then books.filterMap (syncWrite asin_index) else []

/-! ### Branch-unfolding lemmas for the reconciliation loop -/

theorem syncBooks_nil (server : String → Nat)
    (asin_index : List (String × AbsItem)) (apply : Bool) :
    syncBooks server asin_index apply [] = ⟨0, 0, 0, [], [], none⟩ := rfl

theorem syncBooks_cons_none (server : String → Nat)
    (asin_index : List (String × AbsItem)) (apply : Bool)
    (book : FinishedBook) (rest : List FinishedBook)
    (h : asin_index.lookup book.asin = none) :
    syncBooks server asin_index apply (book :: rest) =
      { syncBooks server asin_index apply rest with
        not_found := (syncBooks server asin_index apply rest).not_found + 1,
        outcomes := .NoMatch :: (syncBooks server asin_index apply rest).outcomes } := by
  simp [syncBooks, h]

theorem syncBooks_cons_finished (server : String → Nat)
    (asin_index : List (String × AbsItem)) (apply : Bool)
    (book : FinishedBook) (rest : List FinishedBook) (item : AbsItem)
    (h : asin_index.lookup book.asin = some item)
    (hf : item.is_finished = true) :
    syncBooks server asin_index apply (book :: rest) =
      { syncBooks server asin_index apply rest with
        skipped := (syncBooks server asin_index apply rest).skipped + 1,
        outcomes := .AlreadyFinished ::
          (syncBooks server asin_index apply rest).outcomes } := by
  simp [syncBooks, h, hf]

theorem syncBooks_cons_dry (server : String → Nat)
    (asin_index : List (String × AbsItem))
    (book : FinishedBook) (rest : List FinishedBook) (item : AbsItem)
    (h : asin_index.lookup book.asin = some item)
    (hf : item.is_finished = false) :
    syncBooks server asin_index false (book :: rest) =
      { syncBooks server asin_index false rest with
        synced := (syncBooks server asin_index false rest).synced + 1,
        outcomes := .WouldSync ::
          (syncBooks server asin_index false rest).outcomes } := by
  simp [syncBooks, h, hf]

theorem syncBooks_cons_write_ok (server : String → Nat)
    (asin_index : List (String × AbsItem))
    (book : FinishedBook) (rest : List FinishedBook) (item : AbsItem)
    (h : asin_index.lookup book.asin = some item)
    (hf : item.is_finished = false)
    (hs : server item.item_id < 400) :
    syncBooks server asin_index true (book :: rest) =
      { syncBooks server asin_index true rest with
        synced := (syncBooks server asin_index true rest).synced + 1,
        writes := ⟨item.item_id, true, 1⟩ ::
          (syncBooks server asin_index true rest).writes,
        outcomes := .Synced ::
          (syncBooks server asin_index true rest).outcomes } := by
  simp [syncBooks, h, hf, Nat.not_le.mpr hs]

theorem syncBooks_cons_write_fail (server : String → Nat)
    (asin_index : List (String × AbsItem))
    (book : FinishedBook) (rest : List FinishedBook) (item : AbsItem)
    (h : asin_index.lookup book.asin = some item)
    (hf : item.is_finished = false)
    (hs : 400 ≤ server item.item_id) :
    syncBooks server asin_index true (book :: rest) =
      ⟨0, 0, 0, [⟨item.item_id, true, 1⟩], [], some (server item.item_id)⟩ := by
  simp [syncBooks, h, hf, hs]

theorem syncBooks_aborted_cons_none (server : String → Nat)
    (asin_index : List (String × AbsItem)) (apply : Bool)
    (book : FinishedBook) (rest : List FinishedBook)
    (h : asin_index.lookup book.asin = none) :
    (syncBooks server asin_index apply (book :: rest)).aborted =
      (syncBooks server asin_index apply rest).aborted := by
  simp [syncBooks, h]

theorem syncBooks_aborted_cons_finished (server : String → Nat)
    (asin_index : List (String × AbsItem)) (apply : Bool)
    (book : FinishedBook) (rest : List FinishedBook) (item : AbsItem)
    (h : asin_index.lookup book.asin = some item)
    (hf : item.is_finished = true) :
    (syncBooks server asin_index apply (book :: rest)).aborted =
      (syncBooks server asin_index apply rest).aborted := by
  simp [syncBooks, h, hf]

theorem syncBooks_aborted_cons_dry (server : String → Nat)
    (asin_index : List (String × AbsItem))
    (book : FinishedBook) (rest : List FinishedBook) (item : AbsItem)
    (h : asin_index.lookup book.asin = some item)
    (hf : item.is_finished = false) :
    (syncBooks server asin_index false (book :: rest)).aborted =
      (syncBooks server asin_index false rest).aborted := by
  simp [syncBooks, h, hf]

theorem syncBooks_aborted_cons_ok (server : String → Nat)
    (asin_index : List (String × AbsItem))
    (book : FinishedBook) (rest : List FinishedBook) (item : AbsItem)
    (h : asin_index.lookup book.asin = some item)
    (hf : item.is_finished = false)
    (hs : server item.item_id < 400) :
    (syncBooks server asin_index true (book :: rest)).aborted =
      (syncBooks server asin_index true rest).aborted := by
  simp [syncBooks, h, hf, Nat.not_le.mpr hs]

theorem syncBooks_aborted_cons_fail (server : String → Nat)
    (asin_index : List (String × AbsItem))
    (book : FinishedBook) (rest : List FinishedBook) (item : AbsItem)
    (h : asin_index.lookup book.asin = some item)
    (hf : item.is_finished = false)
    (hs : 400 ≤ server item.item_id) :
    (syncBooks server asin_index true (book :: rest)).aborted =
      some (server item.item_id) := by
  simp [syncBooks, h, hf, hs]

/-- A run's abort flag is `none` exactly when no record in the list has an
unfinished index match whose write would fail under `apply`. -/
theorem syncBooks_aborted_none_iff (server : String → Nat)
    (asin_index : List (String × AbsItem)) (apply : Bool)
    (books : List FinishedBook) :
    (syncBooks server asin_index apply books).aborted = none ↔
      ∀ book ∈ books, ∀ item, asin_index.lookup book.asin = some item →
        item.is_finished = false → apply = true → server item.item_id < 400 := by
  induction books with
  | nil => simp [syncBooks]
  | cons book rest ih =>
    cases hl : asin_index.lookup book.asin with
    | none =>
      rw [syncBooks_aborted_cons_none server asin_index apply book rest hl, ih]
      constructor
      · intro h b hb
        rcases List.mem_cons.mp hb with rfl | hb2
        · intro it hit
          rw [hl] at hit
          cases hit
        · exact h b hb2
      · intro h b hb
        exact h b (List.mem_cons_of_mem book hb)
    | some item =>
      by_cases hf : item.is_finished
      · rw [syncBooks_aborted_cons_finished server asin_index apply book rest
            item hl hf, ih]
        constructor
        · intro h b hb
          rcases List.mem_cons.mp hb with rfl | hb2
          · intro it hit hnf
            rw [hl] at hit
            injection hit with he
            subst he
            rw [hf] at hnf
            cases hnf
          · exact h b hb2
        · intro h b hb
          exact h b (List.mem_cons_of_mem book hb)
      · rw [Bool.not_eq_true] at hf
        cases apply with
        | false =>
          rw [syncBooks_aborted_cons_dry server asin_index book rest item hl hf,
              ih]
          constructor
          · intro h b hb
            rcases List.mem_cons.mp hb with rfl | hb2
            · intro it hit hnf hap
              exact Bool.noConfusion hap
            · exact h b hb2
          · intro h b hb
            exact h b (List.mem_cons_of_mem book hb)
        | true =>
          by_cases hs : 400 ≤ server item.item_id
          · rw [syncBooks_aborted_cons_fail server asin_index book rest item
                hl hf hs]
            constructor
            · intro h
              exact Option.noConfusion h
            · intro h
              have h2 := h book (List.mem_cons_self book rest) item hl hf rfl
              exact absurd h2 (Nat.not_lt.mpr hs)
          · rw [syncBooks_aborted_cons_ok server asin_index book rest item
                hl hf (Nat.not_le.mp hs), ih]
            constructor
            · intro h b hb
              rcases List.mem_cons.mp hb with rfl | hb2
              · intro it hit hnf hap
                rw [hl] at hit
                injection hit with he
                subst he
                exact Nat.not_le.mp hs
              · exact h b hb2
            · intro h b hb
              exact h b (List.mem_cons_of_mem book hb)

/-- Full characterization of a run that completed without aborting: the
three tallies count the three match classes, the writes are exactly the
per-record writes of the unfinished matches (none in dry-run), and the
outcomes follow the branch structure, in input order. -/
theorem syncBooks_spec (server : String → Nat)
    (asin_index : List (String × AbsItem)) (apply : Bool) :
    ∀ books : List FinishedBook,
      (syncBooks server asin_index apply books).aborted = none →
      syncBooks server asin_index apply books =
        ⟨books.countP (matchedUnfinished asin_index),
         books.countP (matchedFinished asin_index),
         books.countP (noMatch asin_index),
         syncWrites asin_index apply books,
         books.map (classify asin_index apply),
         none⟩ := by
  intro books
  induction books with
  | nil =>
    intro _
    simp [syncBooks, syncWrites]
  | cons book rest ih =>
    intro h
    have hrest : (syncBooks server asin_index apply rest).aborted = none :=
      (syncBooks_aborted_none_iff server asin_index apply rest).mpr
        (fun b hb => (syncBooks_aborted_none_iff server asin_index apply
          (book :: rest)).mp h b (List.mem_cons_of_mem book hb))
    cases hl : asin_index.lookup book.asin with
    | none =>
      rw [syncBooks_cons_none server asin_index apply book rest hl, ih hrest]
      simp [List.countP_cons, matchedUnfinished, matchedFinished, noMatch,
        classify, syncWrites, syncWrite, hl]
    | some item =>
      by_cases hf : item.is_finished
      · rw [syncBooks_cons_finished server asin_index apply book rest item
            hl hf, ih hrest]
        simp [List.countP_cons, matchedUnfinished, matchedFinished, noMatch,
          classify, syncWrites, syncWrite, hl, hf]
      · rw [Bool.not_eq_true] at hf
        cases apply with
        | false =>
          rw [syncBooks_cons_dry server asin_index book rest item hl hf,
              ih hrest]
          simp [List.countP_cons, matchedUnfinished, matchedFinished, noMatch,
            classify, syncWrites, syncWrite, hl, hf]
        | true =>
          have hs : server item.item_id < 400 :=
            (syncBooks_aborted_none_iff server asin_index true
              (book :: rest)).mp h book (List.mem_cons_self book rest)
              item hl hf rfl
          rw [syncBooks_cons_write_ok server asin_index book rest item
              hl hf hs, ih hrest]
          simp [List.countP_cons, matchedUnfinished, matchedFinished, noMatch,
            classify, syncWrites, syncWrite, hl, hf]

/-- A dry run never reaches the write branch, so it can never abort. -/
theorem syncBooks_dry_aborted_none (server : String → Nat)
    (asin_index : List (String × AbsItem)) (books : List FinishedBook) :
    (syncBooks server asin_index false books).aborted = none := by
  rw [syncBooks_aborted_none_iff]
  intro b _ it _ _ hap
  exact Bool.noConfusion hap

/-- The three boolean match classes split every record list exactly. -/
theorem countP_match_partition (asin_index : List (String × AbsItem))
    (books : List FinishedBook) :
    books.countP (matchedUnfinished asin_index) +
    books.countP (matchedFinished asin_index) +
    books.countP (noMatch asin_index) = books.length := by
  induction books with
  | nil => rfl
  | cons b rest ih =>
    simp only [List.countP_cons, List.length_cons]
    cases hl : asin_index.lookup b.asin with
    | none =>
      simp [matchedUnfinished, matchedFinished, noMatch, hl]
      omega
    | some it =>
      cases hf : it.is_finished with
      | false =>
        simp [matchedUnfinished, matchedFinished, noMatch, hl, hf]
        omega
      | true =>
        simp [matchedUnfinished, matchedFinished, noMatch, hl, hf]
        omega

/-- Server stub that accepts every PATCH with status 200. -/
def okServer : String → Nat := fun _ => 200

/-- Server stub that rejects every PATCH with status 500. -/
def failServer : String → Nat := fun _ => 500

/-- The end-to-end scenario index:
`{"A1": {internalId:"i1", title:"Foo", isFinished:false}}`. -/
def demoIndex : List (String × AbsItem) := [("A1", ⟨"i1", "Foo", false⟩)]

/-- The end-to-end scenario record list:
`[{catalogId:"A1", title:"Foo", source:"B"}]`. -/
def demoBooks : List FinishedBook := [⟨"A1", "Foo", "B"⟩]

/-- Claim C1: for every list of finished records and every catalog index,
running the reconciliation with `apply = false` issues zero write calls —
no PATCH to the per-item progress endpoint is constructed or sent,
regardless of the records' or index's content (and for any server). -/
theorem C1_dry_run_issues_no_writes (server : String → Nat)
    (asin_index : List (String × AbsItem)) (books : List FinishedBook) :
    (syncBooks server asin_index false books).writes = [] := by
  rw [syncBooks_spec server asin_index false books
      (syncBooks_dry_aborted_none server asin_index books)]
  simp [syncWrites]

/-- Claim C2, counterexample: in the end-to-end scenario the dry run does
NOT report `synced = 0` — the loop increments `synced` after the dry-run
branch as well (progress.py line 348 sits below both branches), so the
reported tally is `synced = 1`. -/
theorem C2_counterexample :
    ¬ (syncBooks okServer demoIndex false demoBooks).synced = 0 := by
  decide

/-- Claim C2 as amended: in the end-to-end scenario, with `apply = false`
the tallies are `{synced: 1, alreadyFinished: 0, notFound: 0}` (the
would-be sync is counted in `synced`), the outcome is `WouldSync` and no
write is issued; with `apply = true` exactly one write call is issued
(PATCH on item `i1` with `{isFinished: true, progress: 1}`), the `synced`
tally is `1`, and the outcome is `Synced`. -/
theorem C2_amended_scenario :
    (syncBooks okServer demoIndex false demoBooks).synced = 1 ∧
    (syncBooks okServer demoIndex false demoBooks).skipped = 0 ∧
    (syncBooks okServer demoIndex false demoBooks).not_found = 0 ∧
    (syncBooks okServer demoIndex false demoBooks).outcomes =
      [.WouldSync] ∧
    (syncBooks okServer demoIndex false demoBooks).writes = [] ∧
    (syncBooks okServer demoIndex true demoBooks).writes =
      [⟨"i1", true, 1⟩] ∧
    (syncBooks okServer demoIndex true demoBooks).synced = 1 ∧
    (syncBooks okServer demoIndex true demoBooks).outcomes = [.Synced] := by
  decide

/-- Claim C10: whenever the reconciliation run completes normally (it did
not abort on a failed write), every input record lands in exactly one of
the three tallies: `synced + skipped + not_found` equals the number of
input records. -/
theorem C10_tallies_partition (server : String → Nat)
    (asin_index : List (String × AbsItem)) (apply : Bool)
    (books : List FinishedBook)
    (h : (syncBooks server asin_index apply books).aborted = none) :
    (syncBooks server asin_index apply books).synced +
    (syncBooks server asin_index apply books).skipped +
    (syncBooks server asin_index apply books).not_found =
      books.length := by
  rw [syncBooks_spec server asin_index apply books h]
  exact countP_match_partition asin_index books

/-- Witness for C10 at the end-to-end scenario under `apply = true`. -/
theorem C10_witness :
    (syncBooks okServer demoIndex true demoBooks).aborted = none ∧
    (syncBooks okServer demoIndex true demoBooks).synced +
    (syncBooks okServer demoIndex true demoBooks).skipped +
    (syncBooks okServer demoIndex true demoBooks).not_found =
      demoBooks.length :=
  ⟨by decide, C10_tallies_partition okServer demoIndex true demoBooks
    (by decide)⟩

/-- Removing one record from the middle of a run that completed without
aborting leaves a run that also completes without aborting. -/
theorem aborted_none_of_middle_removed (server : String → Nat)
    (asin_index : List (String × AbsItem)) (apply : Bool)
    (front back : List FinishedBook) (book : FinishedBook)
    (h : (syncBooks server asin_index apply
        (front ++ book :: back)).aborted = none) :
    (syncBooks server asin_index apply (front ++ back)).aborted = none := by
  rw [syncBooks_aborted_none_iff] at h ⊢
  intro b hb
  apply h b
  rcases List.mem_append.mp hb with hb1 | hb2
  · exact List.mem_append.mpr (Or.inl hb1)
  · exact List.mem_append.mpr (Or.inr (List.mem_cons_of_mem book hb2))

/-- Claim C3: a record whose catalog id matches an index item that is
already finished is classified `AlreadyFinished` (the outcome at its
input position), increments the `alreadyFinished` tally by exactly one
relative to the same run without it, and contributes no write — for any
`apply`, in particular `apply = true`, as long as the run completes. -/
theorem C3_already_finished_no_write (server : String → Nat)
    (asin_index : List (String × AbsItem)) (apply : Bool)
    (front back : List FinishedBook) (book : FinishedBook) (item : AbsItem)
    (hl : asin_index.lookup book.asin = some item)
    (hf : item.is_finished = true)
    (h : (syncBooks server asin_index apply
        (front ++ book :: back)).aborted = none) :
    (syncBooks server asin_index apply
        (front ++ book :: back)).outcomes[front.length]? =
      some .AlreadyFinished ∧
    (syncBooks server asin_index apply (front ++ book :: back)).skipped =
      (syncBooks server asin_index apply (front ++ back)).skipped + 1 ∧
    (syncBooks server asin_index apply (front ++ book :: back)).writes =
      (syncBooks server asin_index apply (front ++ back)).writes := by
  have h2 := aborted_none_of_middle_removed server asin_index apply
    front back book h
  rw [syncBooks_spec server asin_index apply (front ++ book :: back) h,
      syncBooks_spec server asin_index apply (front ++ back) h2]
  refine ⟨?_, ?_, ?_⟩
  · show ((front ++ book :: back).map
      (classify asin_index apply))[front.length]? = some .AlreadyFinished
    rw [List.map_append, List.getElem?_append_right (by simp)]
    simp [classify, hl, hf]
  · show (front ++ book :: back).countP (matchedFinished asin_index) =
      (front ++ back).countP (matchedFinished asin_index) + 1
    simp only [List.countP_append, List.countP_cons]
    have hb : matchedFinished asin_index book = true := by
      simp [matchedFinished, hl, hf]
    rw [hb]
    simp
    omega
  · show syncWrites asin_index apply (front ++ book :: back) =
      syncWrites asin_index apply (front ++ back)
    have hw : syncWrite asin_index book = none := by
      simp [syncWrite, hl, hf]
    cases apply with
    | false => simp [syncWrites]
    | true => simp [syncWrites, List.filterMap_append, List.filterMap_cons, hw]

/-- Witness for C3: a single already-finished match under `apply = true`
is reported `AlreadyFinished`, tallied, and triggers no write. -/
theorem C3_witness :
    (List.lookup "A2" [("A2", (⟨"i2", "Bar", true⟩ : AbsItem))] =
      some ⟨"i2", "Bar", true⟩) ∧
    (AbsItem.mk "i2" "Bar" true).is_finished = true ∧
    (syncBooks okServer [("A2", ⟨"i2", "Bar", true⟩)] true
        ([] ++ (⟨"A2", "Bar", "A"⟩ : FinishedBook) :: [])).aborted = none ∧
    ((syncBooks okServer [("A2", ⟨"i2", "Bar", true⟩)] true
        ([] ++ (⟨"A2", "Bar", "A"⟩ : FinishedBook) :: [])).outcomes[
          (List.length ([] : List FinishedBook))]? =
        some .AlreadyFinished ∧
      (syncBooks okServer [("A2", ⟨"i2", "Bar", true⟩)] true
        ([] ++ (⟨"A2", "Bar", "A"⟩ : FinishedBook) :: [])).skipped =
        (syncBooks okServer [("A2", ⟨"i2", "Bar", true⟩)] true
          ([] ++ [])).skipped + 1 ∧
      (syncBooks okServer [("A2", ⟨"i2", "Bar", true⟩)] true
        ([] ++ (⟨"A2", "Bar", "A"⟩ : FinishedBook) :: [])).writes =
        (syncBooks okServer [("A2", ⟨"i2", "Bar", true⟩)] true
          ([] ++ [])).writes) :=
  ⟨by decide, by decide, by decide,
    C3_already_finished_no_write okServer [("A2", ⟨"i2", "Bar", true⟩)] true
      [] [] ⟨"A2", "Bar", "A"⟩ ⟨"i2", "Bar", true⟩
      (by decide) (by decide) (by decide)⟩

/-- Claim C4: a record whose catalog id is absent from the index is
classified `NoMatch` (the outcome at its input position), increments the
`notFound` tally by exactly one relative to the same run without it, and
contributes no write — for any `apply`, in particular `apply = true`, as
long as the run completes. -/
theorem C4_no_match_no_write (server : String → Nat)
    (asin_index : List (String × AbsItem)) (apply : Bool)
    (front back : List FinishedBook) (book : FinishedBook)
    (hl : asin_index.lookup book.asin = none)
    (h : (syncBooks server asin_index apply
        (front ++ book :: back)).aborted = none) :
    (syncBooks server asin_index apply
        (front ++ book :: back)).outcomes[front.length]? =
      some .NoMatch ∧
    (syncBooks server asin_index apply (front ++ book :: back)).not_found =
      (syncBooks server asin_index apply (front ++ back)).not_found + 1 ∧
    (syncBooks server asin_index apply (front ++ book :: back)).writes =
      (syncBooks server asin_index apply (front ++ back)).writes := by
  have h2 := aborted_none_of_middle_removed server asin_index apply
    front back book h
  rw [syncBooks_spec server asin_index apply (front ++ book :: back) h,
      syncBooks_spec server asin_index apply (front ++ back) h2]
  refine ⟨?_, ?_, ?_⟩
  · show ((front ++ book :: back).map
      (classify asin_index apply))[front.length]? = some .NoMatch
    rw [List.map_append, List.getElem?_append_right (by simp)]
    simp [classify, hl]
  · show (front ++ book :: back).countP (noMatch asin_index) =
      (front ++ back).countP (noMatch asin_index) + 1
    simp only [List.countP_append, List.countP_cons]
    have hb : noMatch asin_index book = true := by
      simp [noMatch, hl]
    rw [hb]
    simp
    omega
  · show syncWrites asin_index apply (front ++ book :: back) =
      syncWrites asin_index apply (front ++ back)
    have hw : syncWrite asin_index book = none := by
      simp [syncWrite, hl]
    cases apply with
    | false => simp [syncWrites]
    | true => simp [syncWrites, List.filterMap_append, List.filterMap_cons, hw]

/-- Witness for C4: a single unmatched record under `apply = true` is
reported `NoMatch`, tallied, and triggers no write. -/
theorem C4_witness :
    (List.lookup "ZZ" demoIndex = none) ∧
    (syncBooks okServer demoIndex true
        ([] ++ (⟨"ZZ", "Gone", "A"⟩ : FinishedBook) :: [])).aborted = none ∧
    ((syncBooks okServer demoIndex true
        ([] ++ (⟨"ZZ", "Gone", "A"⟩ : FinishedBook) :: [])).outcomes[
          (List.length ([] : List FinishedBook))]? = some .NoMatch ∧
      (syncBooks okServer demoIndex true
        ([] ++ (⟨"ZZ", "Gone", "A"⟩ : FinishedBook) :: [])).not_found =
        (syncBooks okServer demoIndex true ([] ++ [])).not_found + 1 ∧
      (syncBooks okServer demoIndex true
        ([] ++ (⟨"ZZ", "Gone", "A"⟩ : FinishedBook) :: [])).writes =
        (syncBooks okServer demoIndex true ([] ++ [])).writes) :=
  ⟨by decide, by decide,
    C4_no_match_no_write okServer demoIndex true [] [] ⟨"ZZ", "Gone", "A"⟩
      (by decide) (by decide)⟩

/-- Modelled from the claim's premise: the catalog index as rebuilt after a
run, in which every item whose id received a PATCH `{isFinished: true}`
write now reports `is_finished = true`, and everything else is unchanged. -/
def refreshIndex (asin_index : List (String × AbsItem))
    (ws : List WriteCall) : List (String × AbsItem) :=
  asin_index.map (fun p =>
    (p.1, if ws.any (fun w => w.item_id == p.2.item_id) then
            { p.2 with is_finished := true }
          else p.2))

/-- Refreshing rewrites each looked-up value pointwise. -/
theorem lookup_refreshIndex (asin_index : List (String × AbsItem))
    (ws : List WriteCall) (a : String) :
    (refreshIndex asin_index ws).lookup a =
      (asin_index.lookup a).map (fun it =>
        if ws.any (fun w => w.item_id == it.item_id) then
          { it with is_finished := true }
        else it) := by
  induction asin_index with
  | nil => rfl
  | cons p rest ih =>
    cases hk : a == p.1 with
    | true => simp [refreshIndex, List.lookup, hk]
    | false => simpa [refreshIndex, List.lookup, hk] using ih

/-- A record with no unfinished match produces no write. -/
theorem syncWrite_eq_none_of_not_unfinished
    (asin_index : List (String × AbsItem)) (book : FinishedBook)
    (h : matchedUnfinished asin_index book = false) :
    syncWrite asin_index book = none := by
  unfold matchedUnfinished at h
  unfold syncWrite
  cases hl : asin_index.lookup book.asin with
  | none => rfl
  | some it =>
    rw [hl] at h
    simp at h
    simp [h]

/-- A record with no unfinished match never classifies as `Synced`. -/
theorem classify_ne_synced_of_not_unfinished
    (asin_index : List (String × AbsItem)) (book : FinishedBook)
    (apply : Bool) (h : matchedUnfinished asin_index book = false) :
    classify asin_index apply book ≠ .Synced := by
  unfold matchedUnfinished at h
  unfold classify
  cases hl : asin_index.lookup book.asin with
  | none => simp
  | some it =>
    rw [hl] at h
    simp at h
    simp [h]

/-- After a completed `apply = true` run, no record still has an
unfinished match in the refreshed index. -/
theorem no_unfinished_after_refresh (server : String → Nat)
    (asin_index : List (String × AbsItem)) (books : List FinishedBook)
    (h : (syncBooks server asin_index true books).aborted = none) :
    ∀ b ∈ books,
      matchedUnfinished
        (refreshIndex asin_index (syncBooks server asin_index true books).writes)
        b = false := by
  intro b hb
  have hw : (syncBooks server asin_index true books).writes =
      books.filterMap (syncWrite asin_index) := by
    rw [syncBooks_spec server asin_index true books h]
    simp [syncWrites]
  unfold matchedUnfinished
  rw [lookup_refreshIndex]
  cases hl : asin_index.lookup b.asin with
  | none => rfl
  | some it =>
    show (!(if (syncBooks server asin_index true books).writes.any
        (fun w => w.item_id == it.item_id) then
          { it with is_finished := true } else it).is_finished) = false
    cases hf : it.is_finished with
    | true =>
      split
      · rfl
      · simp [hf]
    | false =>
      have hmem : (⟨it.item_id, true, 1⟩ : WriteCall) ∈
          (syncBooks server asin_index true books).writes := by
        rw [hw]
        refine List.mem_filterMap.mpr ⟨b, hb, ?_⟩
        simp [syncWrite, hl, hf]
      have hany : (syncBooks server asin_index true books).writes.any
          (fun w => w.item_id == it.item_id) = true := by
        refine List.any_eq_true.mpr ⟨⟨it.item_id, true, 1⟩, hmem, ?_⟩
        simp
      rw [hany]
      simp

/-- Claim C5: running the reconciliation twice with `apply = true`, where
the index for the second run is refreshed so that every item written in
the first run now reports `isFinished = true`, yields zero writes on the
second run, a zero `synced` tally, and no `Synced` outcome at all — in
particular none for the records synced in the first run — for any server
behavior on the second run. -/
theorem C5_second_run_no_writes (server server2 : String → Nat)
    (asin_index : List (String × AbsItem)) (books : List FinishedBook)
    (h : (syncBooks server asin_index true books).aborted = none) :
    (syncBooks server2
      (refreshIndex asin_index (syncBooks server asin_index true books).writes)
      true books).writes = [] ∧
    (syncBooks server2
      (refreshIndex asin_index (syncBooks server asin_index true books).writes)
      true books).synced = 0 ∧
    MatchOutcome.Synced ∉ (syncBooks server2
      (refreshIndex asin_index (syncBooks server asin_index true books).writes)
      true books).outcomes := by
  have hnu := no_unfinished_after_refresh server asin_index books h
  have h2 : (syncBooks server2
      (refreshIndex asin_index (syncBooks server asin_index true books).writes)
      true books).aborted = none := by
    rw [syncBooks_aborted_none_iff]
    intro b hb it hit hnf _
    exfalso
    have hmu := hnu b hb
    unfold matchedUnfinished at hmu
    rw [hit] at hmu
    simp [hnf] at hmu
  rw [syncBooks_spec server2 _ true books h2]
  refine ⟨?_, ?_, ?_⟩
  · show syncWrites _ true books = []
    unfold syncWrites
    rw [if_pos rfl, List.filterMap_eq_nil_iff]
    intro b hb
    exact syncWrite_eq_none_of_not_unfinished _ b (hnu b hb)
  · show books.countP (matchedUnfinished _) = 0
    rw [List.countP_eq_zero]
    intro b hb
    simp [hnu b hb]
  · show MatchOutcome.Synced ∉ books.map (classify _ true)
    intro hmem
    rcases List.mem_map.mp hmem with ⟨b, hb, hcl⟩
    exact classify_ne_synced_of_not_unfinished _ b true (hnu b hb) hcl

/-- Witness for C5 at the end-to-end scenario: the record synced in the
first run is already finished in the refreshed index, so the second run
writes nothing. -/
theorem C5_witness :
    (syncBooks okServer demoIndex true demoBooks).aborted = none ∧
    ((syncBooks okServer
        (refreshIndex demoIndex (syncBooks okServer demoIndex true demoBooks).writes)
        true demoBooks).writes = [] ∧
      (syncBooks okServer
        (refreshIndex demoIndex (syncBooks okServer demoIndex true demoBooks).writes)
        true demoBooks).synced = 0 ∧
      MatchOutcome.Synced ∉ (syncBooks okServer
        (refreshIndex demoIndex (syncBooks okServer demoIndex true demoBooks).writes)
        true demoBooks).outcomes) :=
  ⟨by decide, C5_second_run_no_writes okServer okServer demoIndex demoBooks
    (by decide)⟩

/-- Claim C9: under `apply = true`, when the write call for some record
returns a non-success HTTP status (`≥ 400`), the whole reconciliation run
aborts at that point: the failing PATCH is the last write issued (records
after it contribute no writes) and no further record is processed (the
outcomes list stops before the failing record). -/
theorem C9_write_failure_aborts (server : String → Nat)
    (asin_index : List (String × AbsItem)) :
    ∀ (front back : List FinishedBook) (book : FinishedBook) (item : AbsItem),
      (syncBooks server asin_index true front).aborted = none →
      asin_index.lookup book.asin = some item →
      item.is_finished = false →
      400 ≤ server item.item_id →
      (syncBooks server asin_index true (front ++ book :: back)).aborted =
        some (server item.item_id) ∧
      (syncBooks server asin_index true (front ++ book :: back)).writes =
        (syncBooks server asin_index true front).writes ++
          [⟨item.item_id, true, 1⟩] ∧
      (syncBooks server asin_index true (front ++ book :: back)).outcomes =
        (syncBooks server asin_index true front).outcomes := by
  intro front
  induction front with
  | nil =>
    intro back book item _ hl hf hs
    rw [List.nil_append,
        syncBooks_cons_write_fail server asin_index book back item hl hf hs]
    simp [syncBooks]
  | cons p rest ih =>
    intro back book item hpre hl hf hs
    rw [List.cons_append]
    cases hl2 : asin_index.lookup p.asin with
    | none =>
      have hpre2 : (syncBooks server asin_index true rest).aborted = none := by
        rw [syncBooks_aborted_cons_none server asin_index true p rest hl2]
          at hpre
        exact hpre
      obtain ⟨ha, hw, ho⟩ := ih back book item hpre2 hl hf hs
      rw [syncBooks_cons_none server asin_index true p (rest ++ book :: back)
            hl2,
          syncBooks_cons_none server asin_index true p rest hl2]
      exact ⟨ha, by simp [hw], by simp [ho]⟩
    | some it2 =>
      cases hf2 : it2.is_finished with
      | true =>
        have hpre2 : (syncBooks server asin_index true rest).aborted = none := by
          rw [syncBooks_aborted_cons_finished server asin_index true p rest
                it2 hl2 hf2] at hpre
          exact hpre
        obtain ⟨ha, hw, ho⟩ := ih back book item hpre2 hl hf hs
        rw [syncBooks_cons_finished server asin_index true p
              (rest ++ book :: back) it2 hl2 hf2,
            syncBooks_cons_finished server asin_index true p rest it2 hl2 hf2]
        exact ⟨ha, by simp [hw], by simp [ho]⟩
      | false =>
        have hs2 : server it2.item_id < 400 :=
          (syncBooks_aborted_none_iff server asin_index true (p :: rest)).mp
            hpre p (List.mem_cons_self p rest) it2 hl2 hf2 rfl
        have hpre2 : (syncBooks server asin_index true rest).aborted = none := by
          rw [syncBooks_aborted_cons_ok server asin_index p rest it2 hl2
                hf2 hs2] at hpre
          exact hpre
        obtain ⟨ha, hw, ho⟩ := ih back book item hpre2 hl hf hs
        rw [syncBooks_cons_write_ok server asin_index p (rest ++ book :: back)
              it2 hl2 hf2 hs2,
            syncBooks_cons_write_ok server asin_index p rest it2 hl2 hf2 hs2]
        exact ⟨ha, by simp [hw], by simp [ho]⟩

/-- Witness for C9: with a server that rejects every PATCH with 500, a run
over one syncable record followed by another record aborts after its one
failing write; the trailing record is never processed. -/
theorem C9_witness :
    (syncBooks failServer demoIndex true []).aborted = none ∧
    (List.lookup "A1" demoIndex = some ⟨"i1", "Foo", false⟩) ∧
    (AbsItem.mk "i1" "Foo" false).is_finished = false ∧
    400 ≤ failServer "i1" ∧
    ((syncBooks failServer demoIndex true
        ([] ++ (⟨"A1", "Foo", "B"⟩ : FinishedBook) ::
          [⟨"A1", "Foo2", "A"⟩])).aborted = some (failServer "i1") ∧
      (syncBooks failServer demoIndex true
        ([] ++ (⟨"A1", "Foo", "B"⟩ : FinishedBook) ::
          [⟨"A1", "Foo2", "A"⟩])).writes =
        (syncBooks failServer demoIndex true []).writes ++
          [⟨"i1", true, 1⟩] ∧
      (syncBooks failServer demoIndex true
        ([] ++ (⟨"A1", "Foo", "B"⟩ : FinishedBook) ::
          [⟨"A1", "Foo2", "A"⟩])).outcomes =
        (syncBooks failServer demoIndex true []).outcomes) :=
  ⟨by decide, by decide, by decide, by decide,
    C9_write_failure_aborts failServer demoIndex [] [⟨"A1", "Foo2", "A"⟩]
      ⟨"A1", "Foo", "B"⟩ ⟨"i1", "Foo", false⟩
      (by decide) (by decide) (by decide) (by decide)⟩

/-! ### Pagination of `_build_asin_index` (progress.py lines 227-253) -/

/-- One item of a library listing as consumed by `_build_asin_index`
(progress.py lines 238-248): its `id`, `media.metadata.asin` (the Python
`if asin:` skips both a missing key and an empty string, hence
`Option String` with `some ""` also skipped) and `media.metadata.title`. -/
structure LibItem where
  id : String
  asin : Option String
  title : String
deriving DecidableEq, Repr

/-- One response of `GET /libraries/{id}/items?limit=100&page=p`: the
`results` list and the reported `total` (progress.py lines 231-250). -/
structure Page where
  results : List LibItem
  total : Nat
deriving DecidableEq, Repr

/-- Python dict assignment `index[asin] = value`: overwrite the existing
binding in place, append when the key is new. -/
def dictInsert (index : List (String × AbsItem)) (k : String)
    (v : AbsItem) : List (String × AbsItem) :=
  match index with
  | [] => [(k, v)]
  | (k2, v2) :: rest =>
    if k2 == k then (k, v) :: rest else (k2, v2) :: dictInsert rest k v

/-- The per-item body of the pagination loop (progress.py lines 238-248):
items whose `asin` is missing or empty are skipped; others are inserted
into the index with the finished flag looked up from the `/me` progress
join (`progressOf`, defaulting to `false` for items without progress). -/
def processItems (progressOf : String → Bool) :
    List LibItem → List (String × AbsItem) → List (String × AbsItem)
  | [], index => index
  | it :: rest, index =>
    match it.asin with
    | some a =>
      if a = "" then processItems progressOf rest index
      else processItems progressOf rest
        (dictInsert index a ⟨it.id, it.title, progressOf it.id⟩)
    | none => processItems progressOf rest index

/-- The per-library pagination loop of `_build_asin_index` (progress.py
lines 229-253), with the remote listing modelled as `pages : Nat → Page`.
`fuel` bounds the iterations, since the Python `while True` loop need not
terminate against an inconsistent server; every iteration issues exactly
one page request and the returned `Nat` counts the requests issued.  The
loop stops after a page with empty `results`, or after a page with
`(page + 1) * 100 ≥ total` (the fixed page size is 100). -/
def pageLoop (pages : Nat → Page) (progressOf : String → Bool) :
    Nat → Nat → List (String × AbsItem) → List (String × AbsItem) × Nat
  | 0, _, index => (index, 0)
  | fuel + 1, page, index =>
    let result := pages page
    if result.results = [] then (index, 1)
    else
      let index2 := processItems progressOf result.results index
      if (page + 1) * 100 ≥ result.total then (index2, 1)
      else
        let next := pageLoop pages progressOf fuel (page + 1) index2
        (next.1, next.2 + 1)

/-- An inconsistent library listing whose single page reports `total = 0`
yet carries one item with an ASIN. -/
def oddPages : Nat → Page := fun _ => ⟨[⟨"i9", some "A9", "T9"⟩], 0⟩

/-- A library listing that reports `total = 0` with an empty first page. -/
def emptyPages : Nat → Page := fun _ => ⟨[], 0⟩

/-- Claim C6, counterexample: a library whose first page reports
`total = 0` but (inconsistently) returns a non-empty `results` list gets
exactly one page request, yet its items are still indexed — the library
DOES contribute entries, contrary to the claim. -/
theorem C6_counterexample :
    (oddPages 0).total = 0 ∧
    (pageLoop oddPages (fun _ => false) 1 0 []).2 = 1 ∧
    ¬ (pageLoop oddPages (fun _ => false) 1 0 []).1 = [] := by
  decide

/-- Claim C6 as amended: for every library whose first page reports
`total = 0`, exactly one page request is issued, whatever the page
contains; the library contributes no index entries provided that first
page's `results` list is also empty (which a consistent `total = 0`
listing implies); and in general the loop stops — issuing no further
request — at any page with empty `results` or with
`(page + 1) * 100 ≥ total`. -/
theorem C6_amended_pagination (pages : Nat → Page)
    (progressOf : String → Bool) (fuel : Nat) :
    ((pages 0).total = 0 →
      (pageLoop pages progressOf (fuel + 1) 0 []).2 = 1 ∧
      ((pages 0).results = [] →
        (pageLoop pages progressOf (fuel + 1) 0 []).1 = [])) ∧
    (∀ (page : Nat) (index : List (String × AbsItem)),
      (pages page).results = [] ∨ (page + 1) * 100 ≥ (pages page).total →
      (pageLoop pages progressOf (fuel + 1) page index).2 = 1) := by
  constructor
  · intro h0
    constructor
    · by_cases hr : (pages 0).results = []
      · simp [pageLoop, hr]
      · simp [pageLoop, hr, h0]
    · intro hr
      simp [pageLoop, hr]
  · intro page index h
    rcases h with h | h
    · simp [pageLoop, h]
    · by_cases hr : (pages page).results = []
      · simp [pageLoop, hr]
      · simp [pageLoop, hr, h]

/-- Witness for C6 (amended) at a consistent empty library: one request,
no contribution, and the stop rule at an exhausted page. -/
theorem C6_witness :
    ((emptyPages 0).total = 0 ∧
      ((pageLoop emptyPages (fun _ => false) 1 0 []).2 = 1 ∧
        ((emptyPages 0).results = [] →
          (pageLoop emptyPages (fun _ => false) 1 0 []).1 = []))) ∧
    ((emptyPages 3).results = [] ∨ (3 + 1) * 100 ≥ (emptyPages 3).total) ∧
    (pageLoop emptyPages (fun _ => false) 1 3 []).2 = 1 :=
  ⟨⟨by decide, (C6_amended_pagination emptyPages (fun _ => false) 0).1
      (by decide)⟩,
    by decide,
    (C6_amended_pagination emptyPages (fun _ => false) 0).2 3 []
      (by decide)⟩

/-! ### External source readers (progress.py lines 162-202) -/

/-- One row of the Libation `Books` table, restricted to the two columns
the query selects (progress.py lines 166-171). -/
structure BookRow where
  AudibleProductId : String
  Title : String
deriving DecidableEq, Repr

/-- One row of the Libation `UserDefinedItem` table, restricted to the
columns the query touches. -/
structure UserDefinedItemRow where
  BookId : String
  IsFinished : Int
deriving DecidableEq, Repr

/-- Reader `_read_libation_finished` (progress.py lines 162-174): the SQL inner
join `Books JOIN UserDefinedItem ON AudibleProductId = BookId WHERE
IsFinished = 1`, each joined row mapped to a `FinishedBook` with source
`"Libation"`. -/
def _read_libation_finished (books : List BookRow)
    (udis : List UserDefinedItemRow) : List FinishedBook :=
  books.flatMap (fun b =>
    udis.filterMap (fun u =>
      if b.AudibleProductId = u.BookId ∧ u.IsFinished = 1 then
        some ⟨b.AudibleProductId, b.Title, "Libation"⟩
      else none))

/-- A JSON value, as far as the export reader inspects one. -/
inductive JVal where
  | bool (b : Bool)
  | num (n : Int)
  | str (s : String)
  | null
deriving DecidableEq, Repr

/-- One object of a JSON export array, with the three fields the reader
touches: `asin` (`item["asin"]`, a `KeyError` when absent), `title`
(`item.get("title", "")`) and `is_finished` (`item.get("is_finished")`,
kept as a raw JSON value so that the strict `is True` test is
expressible). -/
structure AudibleJsonEntry where
  asin : Option String
  title : Option String
  is_finished : Option JVal
deriving DecidableEq, Repr

/-- The record the JSON branch keeps for one entry, when any: entries pass
the filter exactly when `is_finished` is the JSON boolean `true`
(`item.get("is_finished") is True`, progress.py line 186). -/
def jsonKeep (e : AudibleJsonEntry) : Option FinishedBook :=
  if e.is_finished = some (JVal.bool true) then
    e.asin.map (fun a => ⟨a, e.title.getD "", "Audible"⟩)
  else none

/-- The JSON branch of `_read_audible_export_finished` (progress.py lines
181-187): keep exactly the entries whose `is_finished` is the boolean
`true`, reading `item["asin"]` (a `KeyError` — modelled as `Except.error`
— when the key is missing) and `item.get("title", "")`. -/
def readAudibleJson : List AudibleJsonEntry → Except String (List FinishedBook)
  | [] => .ok []
  | e :: rest =>
    if e.is_finished = some (JVal.bool true) then
      match e.asin with
      | none => .error "KeyError: asin"
      | some a =>
        match readAudibleJson rest with
        | .error msg => .error msg
        | .ok books => .ok (⟨a, e.title.getD "", "Audible"⟩ :: books)
    else readAudibleJson rest

/-- Python `str.strip()`: drop whitespace from both ends. -/
def pyStrip (s : String) : String :=
  ⟨((s.data.dropWhile Char.isWhitespace).reverse.dropWhile
      Char.isWhitespace).reverse⟩

/-- Python `str.lower()` (ASCII-adequate for the tokens compared here). -/
def pyLower (s : String) : String := ⟨s.data.map Char.toLower⟩

/-- The delimited reader's accepted truthy tokens
(`("true", "1", "yes")`, progress.py line 196). -/
def truthyToken (s : String) : Bool :=
  s == "true" || s == "1" || s == "yes"

/-- One row of a CSV/TSV export as produced by `csv.DictReader`: a mapping
from header name to cell value; `row.get(k, "")` is lookup with default. -/
structure CsvRow where
  fields : List (String × String)
deriving DecidableEq, Repr

/-- The record the delimited branch keeps for one row, when any
(progress.py lines 194-201): the `is_finished` cell stripped and
lowercased must be a truthy token; `asin` and `title` default to `""`
when the column is missing. -/
def csvKeep (row : CsvRow) : Option FinishedBook :=
  if truthyToken (pyLower (pyStrip ((row.fields.lookup "is_finished").getD
      ""))) then
    some ⟨(row.fields.lookup "asin").getD "",
          (row.fields.lookup "title").getD "", "Audible"⟩
  else none

/-- The delimited (CSV/TSV) branch of `_read_audible_export_finished`
(progress.py lines 189-202). -/
def readAudibleDelimited (rows : List CsvRow) : List FinishedBook :=
  rows.filterMap csvKeep

/-- An export file as already parsed into one of the three shapes
`_read_audible_export_finished` dispatches between on the file extension
(progress.py lines 179-190); `.tsv` and `.csv` differ only in the
delimiter handed to the parser, below this model's level. -/
inductive ExportFile where
  | json (data : List AudibleJsonEntry)
  | tsv (rows : List CsvRow)
  | csv (rows : List CsvRow)

/-- Reader `_read_audible_export_finished` (progress.py lines 177-202),
dispatching on the parsed shape of the export file. -/
def _read_audible_export_finished :
    ExportFile → Except String (List FinishedBook)
  | .json data => readAudibleJson data
  | .tsv rows => .ok (readAudibleDelimited rows)
  | .csv rows => .ok (readAudibleDelimited rows)

/-- When the JSON branch succeeds, its output is exactly the entry-wise
filter `jsonKeep`. -/
theorem readAudibleJson_ok_eq :
    ∀ (data : List AudibleJsonEntry) (books : List FinishedBook),
      readAudibleJson data = .ok books → books = data.filterMap jsonKeep := by
  intro data
  induction data with
  | nil =>
    intro books h
    simp only [readAudibleJson] at h
    simp only [List.filterMap_nil]
    injection h with h2
    exact h2.symm
  | cons e rest ih =>
    intro books h
    by_cases hfin : e.is_finished = some (JVal.bool true)
    · simp only [readAudibleJson, if_pos hfin] at h
      cases ha : e.asin with
      | none =>
        simp only [ha] at h
        cases h
      | some a =>
        simp only [ha] at h
        cases hrest : readAudibleJson rest with
        | error msg =>
          rw [hrest] at h
          cases h
        | ok bs =>
          rw [hrest] at h
          injection h with h2
          rw [List.filterMap_cons]
          have hk : jsonKeep e = some ⟨a, e.title.getD "", "Audible"⟩ := by
            simp [jsonKeep, hfin, ha]
          rw [hk, ← h2, ih bs hrest]
    · simp only [readAudibleJson, if_neg hfin] at h
      rw [List.filterMap_cons]
      have hk : jsonKeep e = none := by
        simp [jsonKeep, hfin]
      rw [hk]
      exact ih books h

/-- When the JSON branch succeeds, every finished entry had its `asin`
key present (otherwise the branch would have raised `KeyError`). -/
theorem readAudibleJson_ok_asin_present :
    ∀ (data : List AudibleJsonEntry) (books : List FinishedBook),
      readAudibleJson data = .ok books →
      ∀ e ∈ data, e.is_finished = some (JVal.bool true) → e.asin ≠ none := by
  intro data
  induction data with
  | nil =>
    intro books _ e he
    cases he
  | cons e2 rest ih =>
    intro books h e he hfin
    by_cases hfin2 : e2.is_finished = some (JVal.bool true)
    · simp only [readAudibleJson, if_pos hfin2] at h
      cases ha : e2.asin with
      | none =>
        simp only [ha] at h
        cases h
      | some a =>
        simp only [ha] at h
        cases hrest : readAudibleJson rest with
        | error msg =>
          rw [hrest] at h
          cases h
        | ok bs =>
          rcases List.mem_cons.mp he with rfl | he2
          · simp [ha]
          · exact ih bs hrest e he2 hfin
    · simp only [readAudibleJson, if_neg hfin2] at h
      rcases List.mem_cons.mp he with rfl | he2
      · exact absurd hfin hfin2
      · exact ih books h e he2 hfin

/-- Claim C7, counterexample: the structured-export reader DOES emit
records whose catalog id is empty — a finished JSON entry with
`asin = ""` is passed through, and a delimited row with a truthy
`is_finished` but no `asin` column yields `catalogId = ""`. -/
theorem C7_counterexample :
    (∃ books, _read_audible_export_finished
        (.json [⟨some "", some "T", some (.bool true)⟩]) = .ok books ∧
      ∃ b ∈ books, b.asin = "") ∧
    (∃ books, _read_audible_export_finished
        (.csv [⟨[("is_finished", "yes")]⟩]) = .ok books ∧
      ∃ b ∈ books, b.asin = "") := by
  exact ⟨⟨[⟨"", "T", "Audible"⟩], rfl, ⟨"", "T", "Audible"⟩,
      List.mem_singleton.mpr rfl, rfl⟩,
    ⟨[⟨"", "", "Audible"⟩], rfl, ⟨"", "", "Audible"⟩,
      List.mem_singleton.mpr rfl, rfl⟩⟩

/-- Claim C7 as amended: each reader returns exactly the records its
source marks as completed, in both directions — JSON: every returned
record comes from an entry with `is_finished` strictly the boolean `true`
(soundness), every such entry with a present `asin` key yields its record
(completeness), and a finished entry with a missing `asin` key makes the
whole read fail with a `KeyError` (no record list is returned); CSV/TSV:
every returned record comes from a row whose stripped lowercased
`is_finished` is a truthy token, and every such row yields its record;
Libation: exactly the join rows with `IsFinished = 1`.  But a record
without a usable (non-empty) identifier is NOT skipped: its empty
identifier is passed through. -/
theorem C7_readers_amended :
    (∀ (data : List AudibleJsonEntry) (books : List FinishedBook),
        _read_audible_export_finished (.json data) = .ok books →
        ∀ b ∈ books, ∃ e ∈ data,
          e.is_finished = some (JVal.bool true) ∧ e.asin = some b.asin) ∧
    (∀ (data : List AudibleJsonEntry) (books : List FinishedBook),
        _read_audible_export_finished (.json data) = .ok books →
        ∀ e ∈ data, e.is_finished = some (JVal.bool true) →
        ∀ a, e.asin = some a →
        (⟨a, e.title.getD "", "Audible"⟩ : FinishedBook) ∈ books) ∧
    (∀ (data : List AudibleJsonEntry), ∀ e ∈ data,
        e.is_finished = some (JVal.bool true) → e.asin = none →
        ∃ msg, _read_audible_export_finished (.json data) = .error msg) ∧
    (∀ (rows : List CsvRow) (b : FinishedBook),
        b ∈ readAudibleDelimited rows →
        ∃ row ∈ rows,
          truthyToken (pyLower (pyStrip
            ((row.fields.lookup "is_finished").getD ""))) = true ∧
          b.asin = (row.fields.lookup "asin").getD "") ∧
    (∀ (rows : List CsvRow), ∀ row ∈ rows,
        truthyToken (pyLower (pyStrip
          ((row.fields.lookup "is_finished").getD ""))) = true →
        (⟨(row.fields.lookup "asin").getD "",
          (row.fields.lookup "title").getD "", "Audible"⟩ : FinishedBook) ∈
          readAudibleDelimited rows) ∧
    (∀ (bks : List BookRow) (udis : List UserDefinedItemRow)
        (b : FinishedBook), b ∈ _read_libation_finished bks udis →
        ∃ u ∈ udis, u.IsFinished = 1 ∧ u.BookId = b.asin) ∧
    (∀ (bks : List BookRow) (udis : List UserDefinedItemRow),
        ∀ bk ∈ bks, ∀ u ∈ udis,
          bk.AudibleProductId = u.BookId → u.IsFinished = 1 →
          (⟨bk.AudibleProductId, bk.Title, "Libation"⟩ : FinishedBook) ∈
            _read_libation_finished bks udis) := by
  refine ⟨?_, ?_, ?_, ?_, ?_, ?_, ?_⟩
  · intro data books h b hb
    have hbooks := readAudibleJson_ok_eq data books h
    rw [hbooks] at hb
    rcases List.mem_filterMap.mp hb with ⟨e, he, hke⟩
    refine ⟨e, he, ?_⟩
    by_cases hfin : e.is_finished = some (JVal.bool true)
    · refine ⟨hfin, ?_⟩
      simp only [jsonKeep, if_pos hfin] at hke
      rcases Option.map_eq_some'.mp hke with ⟨a, ha, hba⟩
      subst hba
      exact ha
    · simp only [jsonKeep, if_neg hfin] at hke
      cases hke
  · intro data books h e he hfin a ha
    rw [readAudibleJson_ok_eq data books h]
    refine List.mem_filterMap.mpr ⟨e, he, ?_⟩
    simp [jsonKeep, hfin, ha]
  · intro data e he hfin ha
    cases h : readAudibleJson data with
    | error msg => exact ⟨msg, h⟩
    | ok books =>
      exact absurd ha
        (readAudibleJson_ok_asin_present data books h e he hfin)
  · intro rows b hb
    rcases List.mem_filterMap.mp hb with ⟨row, hrow, hk⟩
    by_cases ht : truthyToken (pyLower (pyStrip
        ((row.fields.lookup "is_finished").getD "")))
    · refine ⟨row, hrow, ht, ?_⟩
      simp only [csvKeep, if_pos ht] at hk
      injection hk with hk2
      rw [← hk2]
    · simp only [csvKeep, if_neg ht] at hk
      cases hk
  · intro rows row hrow ht
    refine List.mem_filterMap.mpr ⟨row, hrow, ?_⟩
    simp only [csvKeep, if_pos ht]
  · intro bks udis b hb
    rcases List.mem_flatMap.mp hb with ⟨bk, hbk, hmem⟩
    rcases List.mem_filterMap.mp hmem with ⟨u, hu, hif⟩
    by_cases hc : bk.AudibleProductId = u.BookId ∧ u.IsFinished = 1
    · rw [if_pos hc] at hif
      injection hif with hif2
      refine ⟨u, hu, hc.2, ?_⟩
      rw [← hif2]
      exact hc.1.symm
    · rw [if_neg hc] at hif
      cases hif
  · intro bks udis bk hbk u hu hj hf
    refine List.mem_flatMap.mpr ⟨bk, hbk, ?_⟩
    refine List.mem_filterMap.mpr ⟨u, hu, ?_⟩
    rw [if_pos ⟨hj, hf⟩]

/-- Witness for C7 (amended): a one-row Libation database, a finished
JSON entry with a missing `asin` key (fatal), and a truthy CSV row whose
record is returned. -/
theorem C7_witness :
    ((⟨"B1", "T1", "Libation"⟩ : FinishedBook) ∈
        _read_libation_finished [⟨"B1", "T1"⟩] [⟨"B1", 1⟩]) ∧
    (∃ u ∈ ([⟨"B1", (1 : Int)⟩] : List UserDefinedItemRow),
        u.IsFinished = 1 ∧
        u.BookId = (FinishedBook.mk "B1" "T1" "Libation").asin) ∧
    (∃ msg, _read_audible_export_finished
        (.json [⟨none, some "T", some (JVal.bool true)⟩]) = .error msg) ∧
    ((⟨"A7", "", "Audible"⟩ : FinishedBook) ∈
        readAudibleDelimited [⟨[("asin", "A7"), ("is_finished", "yes")]⟩]) :=
  ⟨by decide,
    C7_readers_amended.2.2.2.2.2.1 [⟨"B1", "T1"⟩] [⟨"B1", 1⟩]
      ⟨"B1", "T1", "Libation"⟩ (by decide),
    C7_readers_amended.2.2.1 [⟨none, some "T", some (JVal.bool true)⟩]
      ⟨none, some "T", some (JVal.bool true)⟩ (by decide) (by decide)
      (by decide),
    C7_readers_amended.2.2.2.2.1
      [⟨[("asin", "A7"), ("is_finished", "yes")]⟩]
      ⟨[("asin", "A7"), ("is_finished", "yes")]⟩ (by decide) (by decide)⟩

/-- Claim C8: the structured-export reader dispatches on the parsed file
shape; for JSON it keeps exactly the entries whose `is_finished` is
strictly the boolean `true` (a JSON number `1` or string `"true"` is
rejected); for CSV/TSV it keeps exactly the rows whose `is_finished`
cell, trimmed and lowercased, is one of `"true"`, `"1"`, `"yes"` — so a
row with value `"Yes"` is accepted; on the spec's JSON example it returns
exactly one record with `catalogId = "A1"`. -/
theorem C8_export_reader_dispatch :
    (∀ (data : List AudibleJsonEntry) (books : List FinishedBook),
        _read_audible_export_finished (.json data) = .ok books →
        books = data.filterMap jsonKeep) ∧
    (∀ rows : List CsvRow,
        _read_audible_export_finished (.csv rows) =
          .ok (rows.filterMap csvKeep) ∧
        _read_audible_export_finished (.tsv rows) =
          .ok (rows.filterMap csvKeep)) ∧
    _read_audible_export_finished
        (.csv [⟨[("asin", "A9"), ("title", "Some Title"),
                 ("is_finished", "Yes")]⟩]) =
      .ok [⟨"A9", "Some Title", "Audible"⟩] ∧
    _read_audible_export_finished
        (.json [⟨some "A1", some "T", some (.bool true)⟩,
                ⟨some "A2", some "U", some (.bool false)⟩]) =
      .ok [⟨"A1", "T", "Audible"⟩] ∧
    _read_audible_export_finished
        (.json [⟨some "A3", some "T", some (.num 1)⟩]) = .ok [] ∧
    _read_audible_export_finished
        (.json [⟨some "A4", some "T", some (.str "true")⟩]) = .ok [] := by
  refine ⟨?_, ?_, ?_, ?_, ?_, ?_⟩
  · intro data books h
    exact readAudibleJson_ok_eq data books h
  · intro rows
    exact ⟨rfl, rfl⟩
  · rfl
  · rfl
  · rfl
  · rfl

/-- Witness for C8 on a one-entry JSON export. -/
theorem C8_witness :
    (_read_audible_export_finished
        (.json [⟨some "A1", some "T", some (JVal.bool true)⟩]) =
      .ok [⟨"A1", "T", "Audible"⟩]) ∧
    ([⟨"A1", "T", "Audible"⟩] : List FinishedBook) =
      [(⟨some "A1", some "T", some (JVal.bool true)⟩ :
        AudibleJsonEntry)].filterMap jsonKeep :=
  ⟨rfl, C8_export_reader_dispatch.1
      [⟨some "A1", some "T", some (JVal.bool true)⟩]
      [⟨"A1", "T", "Audible"⟩] rfl⟩

end AbsCli
